import Mathlib

/-
  Verification of the landmark-based gesture/emotion classification core
  (gesture_recognizer.py, emotion_detector.py, main.py of the
  human_analyzer_ai repository), shallowly embedded over ℚ coordinates.

  Conventions of the embedding:
  * A landmark point carries rational x/y coordinates (the z/visibility
    fields are never read by the classification core).
  * Python lists of landmarks are Lean `List Pt`; an index access
    `landmarks[i]` that the code only performs under a length guard is
    embedded as `List.getD i ⟨0,0⟩`, which agrees with the source access
    whenever the guard holds.
  * Euclidean-distance comparisons `sqrt d < t` in the source (computed
    with np.sqrt on nonnegative arguments, compared against the constants
    20, 25, 10, 35 with exactly representable squares) are embedded as the
    equivalent squared comparisons `d < t^2`, using monotonicity of sqrt.
  * A Python function that can fall off the end without returning (and so
    makes the caller's tuple unpacking raise TypeError) is embedded with
    result type `Option _`, `none` marking the exceptional outcome.
  * `hand_data`, a Python value that may be None/falsy or a dict lacking
    the 'landmarks' key, is embedded as `Option (Option Landmarks)`:
    `none` is None or a falsy value, `some none` a mapping without a
    'landmarks' entry (an empty dict is both falsy and key-free; either
    embedding takes the same guarded branch), `some (some l)` a mapping
    whose 'landmarks' entry is `l`.
-/

/-- A 2D landmark point (the `x`/`y` entries of a landmark dict). -/
structure Pt where
  x : ℚ
  y : ℚ
deriving DecidableEq, Repr

/-- An ordered hand landmark list (`hand_data['landmarks']`). -/
abbrev Landmarks := List Pt

/-- Index access `landmarks[i]`, total via a default for out-of-range
    indices; every use below sits under the length guard of the source. -/
def getL (l : Landmarks) (i : ℕ) : Pt := l.getD i ⟨0, 0⟩

/-- Squared Euclidean distance; the source's `_calculate_distance` is its
    square root, and all comparisons below square the thresholds. -/
def calculate_distance_sq (p1 p2 : Pt) : ℚ :=
  (p1.x - p2.x) ^ 2 + (p1.y - p2.y) ^ 2

/-- The five finger-extension booleans (`_analyze_finger_states` result). -/
structure FingerStates where
  thumb : Bool
  index : Bool
  middle : Bool
  ring : Bool
  pinky : Bool
deriving DecidableEq, Repr

/-- `_is_thumb_extended`: thumb tip strictly left of the IP joint by more
    than 5 units. -/
def is_thumb_extended (l : Landmarks) : Bool :=
  decide ((getL l 4).x < (getL l 3).x - 5)

/-- `_analyze_finger_states`: a non-thumb finger is extended iff its tip's
    y is more than 10 units less than its MCP joint's y. -/
def analyze_finger_states (l : Landmarks) : FingerStates where
  thumb := is_thumb_extended l
  index := decide ((getL l 8).y < (getL l 5).y - 10)
  middle := decide ((getL l 12).y < (getL l 9).y - 10)
  ring := decide ((getL l 16).y < (getL l 13).y - 10)
  pinky := decide ((getL l 20).y < (getL l 17).y - 10)

/-- `sum([index, middle, ring, pinky])` of the source. -/
def count_extended (f : FingerStates) : ℕ :=
  (if f.index then 1 else 0) + (if f.middle then 1 else 0) +
    (if f.ring then 1 else 0) + (if f.pinky then 1 else 0)

/-- `_is_ok_gesture`: distance(thumb tip, index tip) < 25. -/
def is_ok_gesture (l : Landmarks) : Bool :=
  decide (calculate_distance_sq (getL l 4) (getL l 8) < 625)

/-- `_is_pinching`: 10 < distance(thumb tip, index tip) < 35. -/
def is_pinching (l : Landmarks) : Bool :=
  decide (100 < calculate_distance_sq (getL l 4) (getL l 8) ∧
    calculate_distance_sq (getL l 4) (getL l 8) < 1225)

/-- `_analyze_gestures`: the elif decision chain. The victory and
    thumbs_down branches contain a nested `if` with no else, so entering
    them with the inner test false falls off the function: that outcome is
    `none` (Python returns None, and the caller's unpacking raises). -/
def analyze_gestures (l : Landmarks) (f : FingerStates) : Option (String × ℚ) :=
  if f.thumb = false ∧ count_extended f = 0 then some ("fist", 95/100)
  else if f.thumb = true ∧ count_extended f = 4 then some ("open_hand", 92/100)
  else if f.index = true ∧ f.middle = true ∧ f.ring = false ∧ f.pinky = false then
    (if 400 < calculate_distance_sq (getL l 8) (getL l 12) then
      some ("victory", 93/100)
    else none)
  else if f.index = true ∧ f.middle = false ∧ f.ring = false ∧ f.pinky = false then
    some ("pointing", 90/100)
  else if f.thumb = true ∧ count_extended f = 0 then some ("thumbs_up", 94/100)
  else if f.thumb = true ∧ count_extended f = 0 then
    (if (getL l 0).y + 50 < (getL l 4).y then some ("thumbs_down", 94/100)
    else none)
  else if f.index = true ∧ f.middle = true ∧ f.ring = true ∧ f.pinky = false then
    some ("three_fingers", 88/100)
  else if f.thumb = false ∧ count_extended f = 4 then some ("four_fingers", 86/100)
  else if is_ok_gesture l then some ("ok", 89/100)
  else if f.thumb = true ∧ f.pinky = true ∧ f.index = false ∧ f.middle = false ∧
      f.ring = false then
    some ("rock", 87/100)
  else if is_pinching l then some ("pinch", 85/100)
  else some ("unknown", 3/10)

/-- `recognize_gesture`: the public entry point.  `none`/key-less input and
    short landmark lists short-circuit to ("unknown", 0.0); otherwise the
    decision chain runs (and its exceptional fall-through propagates). -/
def recognize_gesture (hand_data : Option (Option Landmarks)) : Option (String × ℚ) :=
  match hand_data with
  | none => some ("unknown", 0)
  | some none => some ("unknown", 0)
  | some (some hand_landmarks) =>
    if hand_landmarks.length < 21 then some ("unknown", 0)
    else analyze_gestures hand_landmarks (analyze_finger_states hand_landmarks)

/-! ### Concrete landmark sets used as counterexamples and witnesses -/

/-- A 22-point landmark list (one point too many) shaped like a fist:
    the four non-thumb tips (indices 8, 12, 16, 20) sit 10 units below
    their MCP joints, all other points at the origin. -/
def c1_list : Landmarks :=
  [⟨0,0⟩, ⟨0,0⟩, ⟨0,0⟩, ⟨0,0⟩, ⟨0,0⟩, ⟨0,0⟩, ⟨0,0⟩, ⟨0,0⟩,
   ⟨0,10⟩, ⟨0,0⟩, ⟨0,0⟩, ⟨0,0⟩, ⟨0,10⟩, ⟨0,0⟩, ⟨0,0⟩, ⟨0,0⟩,
   ⟨0,10⟩, ⟨0,0⟩, ⟨0,0⟩, ⟨0,0⟩, ⟨0,10⟩, ⟨0,0⟩]

/-- A 21-point landmark list with index and middle fingers extended
    (tips well above their MCPs), ring/pinky/thumb not extended, and the
    two extended tips only 10 units apart (≤ 20), which drives the
    decision chain into the victory branch's missing-return path. -/
def c2_list : Landmarks :=
  [⟨0,0⟩, ⟨0,0⟩, ⟨0,0⟩, ⟨0,0⟩, ⟨0,0⟩, ⟨0,100⟩, ⟨0,0⟩, ⟨0,0⟩,
   ⟨0,0⟩, ⟨10,100⟩, ⟨0,0⟩, ⟨0,0⟩, ⟨10,0⟩, ⟨0,0⟩, ⟨0,0⟩, ⟨0,0⟩,
   ⟨0,0⟩, ⟨0,0⟩, ⟨0,0⟩, ⟨0,0⟩, ⟨0,0⟩]

/-- A 21-point landmark list with only the thumb extended (tip far to the
    left of the IP joint) and no non-thumb finger extended. -/
def c3_list : Landmarks :=
  [⟨0,0⟩, ⟨0,0⟩, ⟨0,0⟩, ⟨100,0⟩, ⟨0,0⟩, ⟨0,0⟩, ⟨0,0⟩, ⟨0,0⟩,
   ⟨0,0⟩, ⟨0,0⟩, ⟨0,0⟩, ⟨0,0⟩, ⟨0,0⟩, ⟨0,0⟩, ⟨0,0⟩, ⟨0,0⟩,
   ⟨0,0⟩, ⟨0,0⟩, ⟨0,0⟩, ⟨0,0⟩, ⟨0,0⟩]

/-- A golden 21-point fist: the four non-thumb tips are exactly 10 units
    below their MCP joints, the thumb tip level with its IP joint. -/
def w4_list : Landmarks :=
  [⟨0,0⟩, ⟨0,0⟩, ⟨0,0⟩, ⟨0,0⟩, ⟨0,0⟩, ⟨0,0⟩, ⟨0,0⟩, ⟨0,0⟩,
   ⟨0,10⟩, ⟨0,0⟩, ⟨0,0⟩, ⟨0,0⟩, ⟨0,10⟩, ⟨0,0⟩, ⟨0,0⟩, ⟨0,0⟩,
   ⟨0,10⟩, ⟨0,0⟩, ⟨0,0⟩, ⟨0,0⟩, ⟨0,10⟩]

/-! ### Gesture-recognizer claims -/

/-- C1 counterexample: a 22-point landmark set (length ≠ 21) is *not*
    mapped to ("unknown", 0.0); the guard in the source only rejects
    lists shorter than 21, so this fist-shaped 22-point set is classified
    as ("fist", 0.95). -/
theorem claim_C1_cex :
    c1_list.length ≠ 21 ∧
      recognize_gesture (some (some c1_list)) ≠ some ("unknown", 0) := by
  constructor
  · norm_num [c1_list]
  · norm_num [recognize_gesture, analyze_gestures, analyze_finger_states,
      is_thumb_extended, is_ok_gesture, is_pinching, count_extended,
      calculate_distance_sq, getL, c1_list]

/-- C1 (amended): for every hand landmark set whose length is **less
    than** 21, recognize_gesture returns ("unknown", 0.0); sets longer
    than 21 points pass the guard and are classified from their first 21
    points. -/
theorem claim_C1 (l : Landmarks) (h : l.length < 21) :
    recognize_gesture (some (some l)) = some ("unknown", 0) := by
  simp [recognize_gesture, if_pos h]

/-- Witness for C1 at the empty landmark list. -/
theorem claim_C1_witness :
    ([] : Landmarks).length < 21 ∧
      recognize_gesture (some (some ([] : Landmarks))) = some ("unknown", 0) :=
  ⟨by decide, claim_C1 [] (by decide)⟩

/-- C2: on a 21-point set with index and middle extended, ring and pinky
    not extended, and the two tips at distance ≤ 20, the decision chain
    enters the victory branch, whose nested distance test fails with no
    else-return: `_analyze_gestures` produces no value (Python None), and
    `recognize_gesture`'s tuple unpacking raises rather than returning a
    label from the later rules.  The claim of totality fails here. -/
theorem claim_C2 : recognize_gesture (some (some c2_list)) = none := by
  norm_num [recognize_gesture, analyze_gestures, analyze_finger_states,
    is_thumb_extended, is_ok_gesture, is_pinching, count_extended,
    calculate_distance_sq, getL, c2_list]

/-- C3 counterexample: recognize_gesture *does* return "thumbs_up":
    its guard (thumb extended, no non-thumb finger extended) differs from
    the fist rule's guard (thumb **not** extended), so a hand with only
    the thumb extended reaches it. -/
theorem claim_C3_cex :
    recognize_gesture (some (some c3_list)) = some ("thumbs_up", 94/100) := by
  norm_num [recognize_gesture, analyze_gestures, analyze_finger_states,
    is_thumb_extended, is_ok_gesture, is_pinching, count_extended,
    calculate_distance_sq, getL, c3_list]

set_option maxHeartbeats 3000000 in
/-- The "thumbs_down" branch of `_analyze_gestures` is unreachable: it is
    guarded by the very condition whose truth already returned "thumbs_up"
    one rule earlier. -/
theorem analyze_gestures_ne_thumbs_down (l : Landmarks) (f : FingerStates) (c : ℚ) :
    analyze_gestures l f ≠ some ("thumbs_down", c) := by
  unfold analyze_gestures
  intro h
  split_ifs at h <;> simp only [Option.some.injEq, Prod.mk.injEq] at h <;>
    exact absurd h.1 (by decide)

/-- C3 (amended): "thumbs_down" is never returned — its branch is guarded
    by a condition identical to the immediately preceding, higher-priority
    "thumbs_up" rule, making it permanently unreachable — but "thumbs_up"
    itself is reachable. -/
theorem claim_C3 :
    (∀ (hd : Option (Option Landmarks)) (c : ℚ),
        recognize_gesture hd ≠ some ("thumbs_down", c)) ∧
      (∃ hd, recognize_gesture hd = some ("thumbs_up", 94/100)) := by
  constructor
  · intro hd c
    rcases hd with _ | o
    · intro h
      simp only [recognize_gesture, Option.some.injEq, Prod.mk.injEq] at h
      exact absurd h.1 (by decide)
    · rcases o with _ | l
      · intro h
        simp only [recognize_gesture, Option.some.injEq, Prod.mk.injEq] at h
        exact absurd h.1 (by decide)
      · simp only [recognize_gesture]
        split_ifs
        · intro h
          simp only [Option.some.injEq, Prod.mk.injEq] at h
          exact absurd h.1 (by decide)
        · exact analyze_gestures_ne_thumbs_down l _ c
  · refine ⟨some (some c3_list), ?_⟩
    norm_num [recognize_gesture, analyze_gestures, analyze_finger_states,
      is_thumb_extended, is_ok_gesture, is_pinching, count_extended,
      calculate_distance_sq, getL, c3_list]

/-- C4: any 21-point landmark set whose four non-thumb tips lie at least
    10 units below (greater y than) their MCP joints, and whose thumb tip
    is not at least 5 units left of its IP joint, is classified as
    ("fist", 0.95). -/
theorem claim_C4 (l : Landmarks) (hlen : l.length = 21)
    (hi : (getL l 5).y + 10 ≤ (getL l 8).y)
    (hm : (getL l 9).y + 10 ≤ (getL l 12).y)
    (hr : (getL l 13).y + 10 ≤ (getL l 16).y)
    (hp : (getL l 17).y + 10 ≤ (getL l 20).y)
    (ht : (getL l 3).x - 5 < (getL l 4).x) :
    recognize_gesture (some (some l)) = some ("fist", 95/100) := by
  have hfs : analyze_finger_states l = ⟨false, false, false, false, false⟩ := by
    simp only [analyze_finger_states, is_thumb_extended, FingerStates.mk.injEq,
      decide_eq_false_iff_not, not_lt]
    exact ⟨by linarith, by linarith, by linarith, by linarith, by linarith⟩
  simp only [recognize_gesture]
  rw [if_neg (by omega : ¬ l.length < 21), hfs]
  simp [analyze_gestures, count_extended]

/-- Witness for C4 at a concrete golden-fist landmark set. -/
theorem claim_C4_witness :
    w4_list.length = 21 ∧
      recognize_gesture (some (some w4_list)) = some ("fist", 95/100) :=
  ⟨by norm_num [w4_list], claim_C4 w4_list (by norm_num [w4_list])
    (by norm_num [getL, w4_list]) (by norm_num [getL, w4_list])
    (by norm_num [getL, w4_list]) (by norm_num [getL, w4_list])
    (by norm_num [getL, w4_list])⟩

/-- C10: a missing hand (Python None or any falsy value, embedded `none`)
    and a mapping without a 'landmarks' key (embedded `some none`, which
    also covers the empty dict) both return ("unknown", 0.0) from
    recognize_gesture rather than raising. -/
theorem claim_C10 :
    recognize_gesture none = some ("unknown", 0) ∧
      recognize_gesture (some none) = some ("unknown", 0) :=
  ⟨rfl, rfl⟩

/-!
### Emotion detector embedding (emotion_detector.py)

Face landmark lists are `List Pt` as well.  Each feature helper in the
source wraps its body in try/except; with a well-formed point list the
only possible exceptions are an IndexError (some accessed index out of
range, the largest accessed index is written in each guard below) and,
in the eye-openness helper, a ZeroDivisionError on a zero eye width.
Each guard below is exactly the no-exception condition of its try block,
and the else value is the except-branch's return value.
-/

/-- Index access `landmarks[i]` on a face mesh. -/
def getF (l : List Pt) (i : ℕ) : Pt := l.getD i ⟨0, 0⟩

/-- `_get_face_width`: |x454 − x234| floored at 50; except-value 100. -/
def get_face_width (l : List Pt) : ℚ :=
  if 454 < l.length then max (abs ((getF l 454).x - (getF l 234).x)) 50 else 100

/-- `_get_face_height`: |y152 − y10| floored at 50; except-value 100. -/
def get_face_height (l : List Pt) : ℚ :=
  if 152 < l.length then max (abs ((getF l 152).y - (getF l 10).y)) 50 else 100

/-- `mouth_width` of `_get_smile_ratio`: |x291 − x61|. -/
def mouth_width (l : List Pt) : ℚ := abs ((getF l 291).x - (getF l 61).x)

/-- The linear rescaling `_get_smile_ratio` applies to the ratio
    mouth_width / face_width: shifted by the assumed neutral ratio 0.4,
    scaled by 1/(0.6 − 0.4), clamped into [0, 1]. -/
def smile_of_ratio (r : ℚ) : ℚ :=
  min (max 0 ((r - 4/10) / (6/10 - 4/10))) 1

/-- `_get_smile_ratio` (largest accessed index 291; face width is ≥ 50 so
    its division cannot fault; except-value 0.0). -/
def get_smile_ratio (l : List Pt) : ℚ :=
  if 291 < l.length then smile_of_ratio (mouth_width l / get_face_width l)
  else 0

/-- `_get_brow_raise` (largest accessed index 386; face height ≥ 50;
    except-value 0.0). -/
def get_brow_raise (l : List Pt) : ℚ :=
  if 386 < l.length then
    min ((abs ((getF l 65).y - (getF l 159).y) +
        abs ((getF l 295).y - (getF l 386).y)) / (get_face_height l * (1/10))) 1
  else 0

/-- `_get_eye_openness_enhanced` (largest accessed index 386; a zero eye
    width raises ZeroDivisionError; except-value 0.5). -/
def get_eye_openness_enhanced (l : List Pt) : ℚ :=
  if 386 < l.length then
    if abs ((getF l 133).x - (getF l 33).x) = 0 ∨
        abs ((getF l 263).x - (getF l 362).x) = 0 then 1/2
    else
      min ((abs ((getF l 159).y - (getF l 145).y) /
            abs ((getF l 133).x - (getF l 33).x) +
          abs ((getF l 386).y - (getF l 374).y) /
            abs ((getF l 263).x - (getF l 362).x)) / 2 * 3) 1
  else 1/2

/-- `_get_mouth_openness_enhanced` (largest accessed index 14; face
    height ≥ 50; except-value 0.0). -/
def get_mouth_openness_enhanced (l : List Pt) : ℚ :=
  if 14 < l.length then
    min (abs ((getF l 13).y - (getF l 14).y) / (get_face_height l * (8/100))) 1
  else 0

/-- `_get_jaw_drop_enhanced` (largest accessed index 152; face height
    ≥ 50; except-value 0.0). -/
def get_jaw_drop_enhanced (l : List Pt) : ℚ :=
  if 152 < l.length then
    min (abs ((getF l 152).y - (getF l 1).y) / (get_face_height l * (1/2))) 1
  else 0

/-- `_detect_emotion_enhanced`: the per-frame emotion decision chain over
    the five features (each feature already absorbs its own faults, so
    the outer try/except of the source never fires on a point list). -/
def detect_emotion_enhanced (l : List Pt) : String × ℚ :=
  if 15/100 < get_smile_ratio l then
    if 25/100 < get_mouth_openness_enhanced l then
      ("happy", min (8/10 + get_smile_ratio l) (95/100))
    else
      ("happy", min (7/10 + get_smile_ratio l) (9/10))
  else if 35/100 < get_mouth_openness_enhanced l ∧
      8/10 < get_eye_openness_enhanced l then ("surprise", 85/100)
  else if 6/10 < get_brow_raise l ∧ get_smile_ratio l < 1/10 then
    ("angry", 8/10)
  else if 3/10 < get_brow_raise l ∧ get_smile_ratio l < 5/100 ∧
      get_eye_openness_enhanced l < 6/10 then ("sad", 75/100)
  else if 4/10 < get_jaw_drop_enhanced l ∧ 4/10 < get_brow_raise l then
    ("fear", 7/10)
  else if get_mouth_openness_enhanced l < 15/100 ∧
      4/10 < get_eye_openness_enhanced l ∧
      get_eye_openness_enhanced l < 8/10 then ("neutral", 85/100)
  else ("neutral", 6/10)

/-- One `append` on the `deque(maxlen=10)` emotion history: the new entry
    goes to the right, and past capacity the oldest (leftmost) entry is
    evicted. -/
def dequePush10 (buf : List (String × ℚ)) (x : String × ℚ) : List (String × ℚ) :=
  if buf.length < 10 then buf ++ [x] else buf.drop 1 ++ [x]

/-- getD over a function-tabulated list selects the function value. -/
theorem getD_map_range (f : ℕ → Pt) (n i : ℕ) (hi : i < n) (d : Pt) :
    ((List.range n).map f).getD i d = f i := by
  simp [List.getD_eq_getElem?_getD, List.getElem?_map, List.getElem?_range, hi]

/-- Point table of the 468-point witness face mesh: face width 100
    (points 234/454), face height 100 (points 10/152), mouth corners 46
    apart (points 61/291, so ratio 0.46 and smile_ratio 0.3), inner lips
    0.8 apart (points 13/14, so mouth_openness 0.1). -/
def w5f (i : ℕ) : Pt :=
  if i = 454 then ⟨100, 0⟩
  else if i = 61 then ⟨0, 50⟩
  else if i = 291 then ⟨46, 50⟩
  else if i = 13 then ⟨0, 50⟩
  else if i = 14 then ⟨0, 254/5⟩
  else if i = 152 then ⟨0, 100⟩
  else ⟨0, 0⟩

/-- The 468-point witness face mesh. -/
def w5_list : List Pt := (List.range 468).map w5f

theorem w5_len : w5_list.length = 468 := by
  simp [w5_list]

theorem w5_getF (i : ℕ) (hi : i < 468) : getF w5_list i = w5f i := by
  rw [getF, w5_list]
  exact getD_map_range w5f 468 i hi _

theorem w5_smile : get_smile_ratio w5_list = 3/10 := by
  rw [get_smile_ratio, if_pos (by rw [w5_len]; norm_num), mouth_width, get_face_width,
    if_pos (by rw [w5_len]; norm_num)]
  rw [w5_getF 291 (by norm_num), w5_getF 61 (by norm_num), w5_getF 454 (by norm_num),
    w5_getF 234 (by norm_num)]
  norm_num [w5f, smile_of_ratio, max_def, min_def]

theorem w5_mouth : get_mouth_openness_enhanced w5_list = 1/10 := by
  rw [get_mouth_openness_enhanced, if_pos (by rw [w5_len]; norm_num), get_face_height,
    if_pos (by rw [w5_len]; norm_num)]
  rw [w5_getF 13 (by norm_num), w5_getF 14 (by norm_num), w5_getF 152 (by norm_num),
    w5_getF 10 (by norm_num)]
  norm_num [w5f, max_def, min_def, abs_of_nonneg]

/-- C5: on any face landmark set of at least 468 points whose computed
    smile_ratio exceeds 0.15, the per-frame enhanced emotion decision is
    "happy", with confidence min(0.8+smile_ratio, 0.95) when
    mouth_openness > 0.25 and min(0.7+smile_ratio, 0.90) otherwise. -/
theorem claim_C5 (l : List Pt) (h468 : 468 ≤ l.length)
    (hs : 15/100 < get_smile_ratio l) :
    detect_emotion_enhanced l =
      ("happy",
        if 25/100 < get_mouth_openness_enhanced l then
          min (8/10 + get_smile_ratio l) (95/100)
        else min (7/10 + get_smile_ratio l) (9/10)) := by
  rw [detect_emotion_enhanced, if_pos hs]
  split_ifs <;> rfl

/-- Witness for C5: the concrete 468-point mesh with smile_ratio 0.3 and
    mouth_openness 0.1 classifies as ("happy", 0.90). -/
theorem claim_C5_witness :
    468 ≤ w5_list.length ∧ 15/100 < get_smile_ratio w5_list ∧
      detect_emotion_enhanced w5_list = ("happy", 9/10) := by
  refine ⟨by norm_num [w5_len], by rw [w5_smile]; norm_num, ?_⟩
  rw [claim_C5 w5_list (by norm_num [w5_len]) (by rw [w5_smile]; norm_num)]
  rw [w5_mouth, w5_smile, if_neg (by norm_num)]
  norm_num [min_def]

/-- A 292-point landmark list (all points at the origin), long enough for
    the smile-ratio try block to run without an IndexError. -/
def w6_list : List Pt := List.replicate 292 ⟨0, 0⟩

/-- C6: `_get_smile_ratio` factors through the mouth/face width ratio
    (face size fixed by the landmark set); the rescaling is monotonically
    non-decreasing in the ratio above 0.4, equals 1.0 at ratio 0.6, and
    is always clipped into [0, 1]. -/
theorem claim_C6 :
    (∀ l : List Pt, 291 < l.length →
        get_smile_ratio l = smile_of_ratio (mouth_width l / get_face_width l)) ∧
      (∀ r1 r2 : ℚ, 4/10 < r1 → r1 ≤ r2 →
        smile_of_ratio r1 ≤ smile_of_ratio r2) ∧
      smile_of_ratio (6/10) = 1 ∧
      (∀ r : ℚ, 0 ≤ smile_of_ratio r ∧ smile_of_ratio r ≤ 1) := by
  refine ⟨?_, ?_, ?_, ?_⟩
  · intro l hl
    rw [get_smile_ratio, if_pos hl]
  · intro r1 r2 hgt h12
    unfold smile_of_ratio
    refine min_le_min (max_le_max le_rfl ?_) le_rfl
    have h02 : (0:ℚ) < 6/10 - 4/10 := by norm_num
    exact (div_le_div_right h02).mpr (by linarith)
  · norm_num [smile_of_ratio, max_def, min_def]
  · intro r
    exact ⟨le_min (le_max_left 0 _) zero_le_one, min_le_right _ 1⟩

/-- Witness for C6: the factoring at a concrete 292-point mesh and the
    monotone step from ratio 0.5 to ratio 0.6. -/
theorem claim_C6_witness :
    (291 < w6_list.length ∧
        get_smile_ratio w6_list =
          smile_of_ratio (mouth_width w6_list / get_face_width w6_list)) ∧
      ((4:ℚ)/10 < 1/2 ∧ (1:ℚ)/2 ≤ 6/10 ∧
        smile_of_ratio (1/2) ≤ smile_of_ratio (6/10)) :=
  ⟨⟨by norm_num [w6_list], claim_C6.1 w6_list (by norm_num [w6_list])⟩,
   ⟨by norm_num, by norm_num, claim_C6.2.1 (1/2) (6/10) (by norm_num) (by norm_num)⟩⟩

/-- One deque append keeps the buffer within capacity. -/
theorem dequePush10_length_le (buf : List (String × ℚ)) (x : String × ℚ)
    (h : buf.length ≤ 10) : (dequePush10 buf x).length ≤ 10 := by
  unfold dequePush10
  split_ifs with hlt <;> simp [List.length_append] <;> omega

/-- C7: the emotion HistoryBuffer (a deque of maxlen 10) holds at most 10
    entries after any sequence of appends from any within-capacity start;
    appending 11 entries to an empty buffer leaves exactly the 2nd through
    11th in push order, so the 1st entry is gone whenever it differs from
    the survivors. -/
theorem claim_C7 :
    (∀ (init xs : List (String × ℚ)), init.length ≤ 10 →
        (List.foldl dequePush10 init xs).length ≤ 10) ∧
      (∀ e1 e2 e3 e4 e5 e6 e7 e8 e9 e10 e11 : String × ℚ,
        List.foldl dequePush10 [] [e1, e2, e3, e4, e5, e6, e7, e8, e9, e10, e11] =
          [e2, e3, e4, e5, e6, e7, e8, e9, e10, e11]) ∧
      (∀ e1 e2 e3 e4 e5 e6 e7 e8 e9 e10 e11 : String × ℚ,
        e1 ∉ [e2, e3, e4, e5, e6, e7, e8, e9, e10, e11] →
          e1 ∉ List.foldl dequePush10 []
            [e1, e2, e3, e4, e5, e6, e7, e8, e9, e10, e11]) := by
  have h2 : ∀ e1 e2 e3 e4 e5 e6 e7 e8 e9 e10 e11 : String × ℚ,
      List.foldl dequePush10 [] [e1, e2, e3, e4, e5, e6, e7, e8, e9, e10, e11] =
        [e2, e3, e4, e5, e6, e7, e8, e9, e10, e11] := by
    intro e1 e2 e3 e4 e5 e6 e7 e8 e9 e10 e11
    simp [List.foldl, dequePush10]
  refine ⟨?_, h2, ?_⟩
  · intro init xs
    induction xs generalizing init with
    | nil => intro h; simpa using h
    | cons x xs ih =>
      intro h
      exact ih _ (dequePush10_length_le init x h)
  · intro e1 e2 e3 e4 e5 e6 e7 e8 e9 e10 e11 hmem
    rw [h2 e1 e2 e3 e4 e5 e6 e7 e8 e9 e10 e11]
    exact hmem

/-- Witness for C7: 12 identical pushes stay within capacity, and a
    distinguished first entry is evicted by the 11th push. -/
theorem claim_C7_witness :
    ((List.foldl dequePush10 [] (List.replicate 12 ("happy", (9:ℚ)/10))).length ≤ 10) ∧
      (("angry", (0:ℚ)) ∉
        List.foldl dequePush10 []
          [("angry", 0), ("happy", 0), ("happy", 0), ("happy", 0), ("happy", 0),
           ("happy", 0), ("happy", 0), ("happy", 0), ("happy", 0), ("happy", 0),
           ("happy", 0)]) :=
  ⟨claim_C7.1 [] (List.replicate 12 ("happy", 9/10)) (by norm_num),
   claim_C7.2.2 ("angry", 0) ("happy", 0) ("happy", 0) ("happy", 0) ("happy", 0)
     ("happy", 0) ("happy", 0) ("happy", 0) ("happy", 0) ("happy", 0) ("happy", 0)
     (by decide)⟩

/-!
### Per-frame gesture output of main.py (process_frame, gesture half)
-/

/-- The gesture half of `process_frame` (main.py): each enumerated hand is
    classified by `recognize_gesture` and the raw (label, confidence) pair
    is appended to the frame's `gestures` list, which is what the
    presentation layer receives.  If any call faults (the `none` outcome),
    the surrounding try/except discards the frame's results and returns an
    empty list.  No history is consulted: the function has no state
    parameter, and `GestureRecognizer` holds none. -/
def process_frame_gestures (hands_data : List (Option (Option Landmarks))) :
    List (String × ℚ) :=
  if hands_data.all (fun hd => (recognize_gesture hd).isSome) then
    hands_data.map (fun hd => (recognize_gesture hd).getD ("unknown", 0))
  else []

/-- Modelled from the spec: the Temporal Smoother reduction that §4.4
    prescribes for every stream, gesture streams included.  No gesture
    smoother exists anywhere in the source (only the emotion stream has
    one, and `process_frame` hands gesture results on raw); this
    definition follows the spec's words: take the last 5 entries, pick the
    most frequent label (ties broken by the earliest scan position
    achieving the count), average the confidences of the entries carrying
    the winning label, cap at 0.95; empty history yields ("neutral", 0.5). -/
def spec_gesture_smooth (history : List (String × ℚ)) : String × ℚ :=
  match history with
  | [] => ("neutral", 1/2)
  | _ :: _ =>
    let recent := history.drop (history.length - 5)
    let labels := recent.map Prod.fst
    let winner :=
      match labels with
      | [] => "neutral"
      | l0 :: rest =>
        rest.foldl
          (fun best x => if labels.count best < labels.count x then x else best) l0
    let confs := (recent.filter (fun p => p.1 == winner)).map Prod.snd
    (winner, min (confs.sum / (confs.length : ℚ)) (95/100))

/-- A 21-point open hand: thumb tip far left of its IP joint, all four
    non-thumb tips far above their MCP joints. -/
def open_list : Landmarks :=
  [⟨0,0⟩, ⟨0,0⟩, ⟨0,0⟩, ⟨100,0⟩, ⟨0,0⟩, ⟨0,100⟩, ⟨0,0⟩, ⟨0,0⟩,
   ⟨0,0⟩, ⟨0,100⟩, ⟨0,0⟩, ⟨0,0⟩, ⟨0,0⟩, ⟨0,100⟩, ⟨0,0⟩, ⟨0,0⟩,
   ⟨0,0⟩, ⟨0,100⟩, ⟨0,0⟩, ⟨0,0⟩, ⟨0,0⟩]

theorem recognize_w4_eval :
    recognize_gesture (some (some w4_list)) = some ("fist", 95/100) := by
  norm_num [recognize_gesture, analyze_gestures, analyze_finger_states,
    is_thumb_extended, is_ok_gesture, is_pinching, count_extended,
    calculate_distance_sq, getL, w4_list]

theorem recognize_open_eval :
    recognize_gesture (some (some open_list)) = some ("open_hand", 92/100) := by
  norm_num [recognize_gesture, analyze_gestures, analyze_finger_states,
    is_thumb_extended, is_ok_gesture, is_pinching, count_extended,
    calculate_distance_sq, getL, open_list]

/-- C9 counterexample: a three-frame stream showing two fists and then an
    open hand.  The frame-3 gesture output that `process_frame` hands to
    the presentation layer is the raw ("open_hand", 0.92), whereas the
    spec's per-stream smoothing over the same stream's history would give
    ("fist", 0.95) — the code's per-frame gesture output is not the
    smoothed value. -/
theorem claim_C9_cex :
    process_frame_gestures [some (some open_list)] = [("open_hand", 92/100)] ∧
      spec_gesture_smooth (List.foldl dequePush10 []
          (List.map (fun hd => (recognize_gesture hd).getD ("unknown", 0))
            [some (some w4_list), some (some w4_list), some (some open_list)])) =
        ("fist", 95/100) ∧
      (("open_hand", (92:ℚ)/100) ≠ (("fist", 95/100) : String × ℚ)) := by
  refine ⟨?_, ?_, by norm_num⟩
  · rw [process_frame_gestures, if_pos]
    · simp [recognize_open_eval]
    · simp [recognize_open_eval]
  · simp only [List.map_cons, List.map_nil, recognize_w4_eval, recognize_open_eval,
      Option.getD_some]
    simp [spec_gesture_smooth, List.foldl, dequePush10, List.count_cons,
      List.count_nil, List.filter, List.sum, beq_iff_eq]

/-- C9 (amended): the per-frame gesture output handed to the presentation
    layer is the list of raw single-frame `recognize_gesture`
    classifications of the enumerated hands, in enumeration order — no
    per-hand FIFO exists and no temporal smoothing is applied to gesture
    streams (only the emotion stream is smoothed). -/
theorem claim_C9 (hands_data : List (Option (Option Landmarks)))
    (h : ∀ hd ∈ hands_data, (recognize_gesture hd).isSome = true) :
    process_frame_gestures hands_data =
      hands_data.map (fun hd => (recognize_gesture hd).getD ("unknown", 0)) := by
  rw [process_frame_gestures, if_pos]
  rw [List.all_eq_true]
  exact h

/-- Witness for C9 at a single fist hand. -/
theorem claim_C9_witness :
    (∀ hd ∈ [some (some w4_list)], (recognize_gesture hd).isSome = true) ∧
      process_frame_gestures [some (some w4_list)] =
        [(recognize_gesture (some (some w4_list))).getD ("unknown", 0)] := by
  have h : ∀ hd ∈ [some (some w4_list)], (recognize_gesture hd).isSome = true := by
    intro hd hhd
    rw [List.mem_singleton] at hhd
    rw [hhd, recognize_w4_eval]
    rfl
  refine ⟨h, ?_⟩
  rw [claim_C9 [some (some w4_list)] h, List.map_cons, List.map_nil]

/-- Witness for C3: the no-thumbs_down half applied at a concrete input,
    and the thumbs_up reachability instance. -/
theorem claim_C3_witness :
    recognize_gesture (some (some c2_list)) ≠ some ("thumbs_down", 94/100) :=
  claim_C3.1 (some (some c2_list)) (94/100)
